import Mathlib

/-!
Verification of the TestOrganizer module (src/testorganizer.py).

The filesystem is modelled as an oracle `FS` answering the three probes the
code performs: `os.path.exists`, `os.path.isdir`, and `os.listdir`.  The
functions `check_module_structure`, `list_all_modules` and `run` are shallow
embeddings of the Python functions of the same names.
-/

/-- Filesystem oracle: the read-only probes used by the code. -/
structure FS where
  pathExists : String → Bool
  isDir : String → Bool
  listdir : String → List String

/-- Python `s.startswith(c)` for a one-character prefix: the first
character of `s` is `c`. -/
def startsWithChar (s : String) (c : Char) : Bool :=
  s.data.head? = some c

/-- Python `s.endswith(c)` for a one-character suffix: the last character
of `s` is `c`. -/
def endsWithChar (s : String) (c : Char) : Bool :=
  s.data.getLast? = some c

/-- Python `s.lower()`, lowercasing each character (ASCII model). -/
def lower (s : String) : String :=
  ⟨s.data.map Char.toLower⟩

/-- POSIX `os.path.join(a, b)` for two components. -/
def joinPath (a b : String) : String :=
  if startsWithChar b '/' then b
  else if a.isEmpty || endsWithChar a '/' then a ++ b
  else a ++ "/" ++ b

/-- The dictionary returned by `check_module_structure`. -/
structure ModuleStructureResult where
  module : String
  exists_ : Bool
  has_tool_py : Bool
  has_tool_yaml : Bool
  has_legacy_module : Bool
  is_complete : Bool
deriving DecidableEq, Repr

/-- Embedding of `check_module_structure` (src/testorganizer.py:13-55).
The `has_tool_py` / `has_tool_yaml` fields stay `false` when the module
directory check fails, since the Python code only assigns them inside the
`if` branch. -/
def check_module_structure (fs : FS) (module_name : String) : ModuleStructureResult :=
  let module_dir := joinPath "modules" module_name
  let ex := fs.pathExists module_dir && fs.isDir module_dir
  let has_tool_py := ex && fs.pathExists (joinPath module_dir "tool.py")
  let has_tool_yaml := ex && fs.pathExists (joinPath module_dir "tool.yaml")
  let has_legacy_module := fs.pathExists ("modules/" ++ lower module_name ++ ".py")
  { module := module_name
    exists_ := ex
    has_tool_py := has_tool_py
    has_tool_yaml := has_tool_yaml
    has_legacy_module := has_legacy_module
    is_complete := ex && has_tool_py && has_tool_yaml }

/-- Embedding of `list_all_modules` (src/testorganizer.py:57-77): the `for`
loop appending to `modules` becomes a left fold over the directory listing. -/
def list_all_modules (fs : FS) : List ModuleStructureResult :=
  if !fs.pathExists "modules" then []
  else
    (fs.listdir "modules").foldl
      (fun modules item =>
        if fs.isDir (joinPath "modules" item) && !startsWithChar item '.' then
          modules ++ [check_module_structure fs item]
        else modules)
      []

/-- The `params` dictionary passed to `run`: the two keys the code reads,
each possibly absent. -/
structure Params where
  operation : Option String
  module_name : Option String

/-- The response dictionary produced by `run`.  `result` and `modules` are
`Option`s since only some branches include those keys. -/
structure Response where
  status : String
  message : String
  module : String
  result : Option ModuleStructureResult
  modules : Option (List ModuleStructureResult)
deriving DecidableEq, Repr

/-- Embedding of `run` (src/testorganizer.py:79-130).  `params.get` with a
default becomes `Option.getD`; Python's falsiness test `if not module_name`
on an optional string holds exactly when the key is absent or the string is
empty, which the `getD ""` / `= ""` combination captures. -/
def run (fs : FS) (params : Params) : Response :=
  let operation := params.operation.getD "list"
  if operation = "check" then
    let module_name := params.module_name.getD ""
    if module_name = "" then
      ⟨"error", "Missing module_name parameter for check operation",
        "TestOrganizer", none, none⟩
    else
      let result := check_module_structure fs module_name
      let status := if result.is_complete then "complete" else "incomplete"
      ⟨status, "Module structure check completed for " ++ module_name,
        "TestOrganizer", some result, none⟩
  else if operation = "list" then
    let modules := list_all_modules fs
    let complete_count := (modules.filter (fun m => m.is_complete)).length
    let incomplete_count := modules.length - complete_count
    ⟨"success",
      "Found " ++ toString modules.length ++ " modules (" ++
        toString complete_count ++ " complete, " ++
        toString incomplete_count ++ " incomplete)",
      "TestOrganizer", none, some modules⟩
  else
    ⟨"error", "Unknown operation: " ++ operation, "TestOrganizer", none, none⟩

/-- A filesystem with nothing in it, used as a concrete test state. -/
def emptyFS : FS :=
  ⟨fun _ => false, fun _ => false, fun _ => []⟩

/-- C1: for every filesystem state and module name, `is_complete` of the
check result equals the conjunction of the `exists`, `has_tool_py` and
`has_tool_yaml` flags: it is derived from the three flags, never set
independently. -/
theorem is_complete_derived (fs : FS) (m : String) :
    (check_module_structure fs m).is_complete =
      ((check_module_structure fs m).exists_ &&
        (check_module_structure fs m).has_tool_py &&
        (check_module_structure fs m).has_tool_yaml) := by
  simp [check_module_structure]

/-- A filesystem matching the legacy-module scenario: the file
`modules/baz.py` exists but no `modules/baz` directory does. -/
def legacyFS : FS :=
  ⟨fun p => p = "modules" || p = "modules/baz.py", fun p => p = "modules", fun _ => ["baz.py"]⟩

/-- A filesystem where `modules/bar/` contains only `tool.py`. -/
def barFS : FS :=
  ⟨fun p => p = "modules" || p = "modules/bar" || p = "modules/bar/tool.py",
    fun p => p = "modules" || p = "modules/bar",
    fun p => if p = "modules" then ["bar"] else []⟩

/-- C2 counterexample: when `operation` is absent, `run` does not return an
error — it defaults to `"list"` and succeeds, contradicting the claim that
an absent operation is an UnknownOperation error. -/
theorem run_absent_operation_is_success :
    (run emptyFS ⟨none, none⟩).status = "success" ∧
      ¬ (run emptyFS ⟨none, none⟩).status = "error" := by
  refine ⟨rfl, ?_⟩
  decide

/-- C2 (amended): for every params mapping whose `operation` key is present
with a value other than `"check"` or `"list"`, `run` returns a structured
error response whose message names the offending operation string. -/
theorem run_unknown_operation (fs : FS) (params : Params) (op : String)
    (hop : params.operation = some op) (hc : op ≠ "check") (hl : op ≠ "list") :
    (run fs params).status = "error" ∧
      (run fs params).message = "Unknown operation: " ++ op ∧
      (run fs params).module = "TestOrganizer" := by
  obtain ⟨o, mn⟩ := params
  cases hop
  simp [run, hc, hl]

/-- C2 witness: `run({operation:"bogus"})` yields an error naming "bogus". -/
theorem run_unknown_operation_witness :
    (run emptyFS ⟨some "bogus", none⟩).status = "error" ∧
      (run emptyFS ⟨some "bogus", none⟩).message = "Unknown operation: " ++ "bogus" ∧
      (run emptyFS ⟨some "bogus", none⟩).module = "TestOrganizer" :=
  run_unknown_operation emptyFS ⟨some "bogus", none⟩ "bogus" rfl (by decide) (by decide)

/-- C3: when the `modules` root does not exist, `list_all_modules` returns
the empty report and `run` with operation `"list"` yields success with an
empty modules list and the zero-count message. -/
theorem run_list_missing_root (fs : FS) (params : Params)
    (hroot : fs.pathExists "modules" = false)
    (hop : params.operation = some "list") :
    list_all_modules fs = [] ∧
      (run fs params).status = "success" ∧
      (run fs params).modules = some [] ∧
      (run fs params).message = "Found 0 modules (0 complete, 0 incomplete)" := by
  obtain ⟨o, mn⟩ := params
  cases hop
  have hempty : list_all_modules fs = [] := by
    simp [list_all_modules, hroot]
  refine ⟨hempty, ?_, ?_, ?_⟩ <;> (simp [run, hempty]; try rfl)

/-- C3 witness: on the empty filesystem, listing yields the empty report. -/
theorem run_list_missing_root_witness :
    list_all_modules emptyFS = [] ∧
      (run emptyFS ⟨some "list", none⟩).status = "success" ∧
      (run emptyFS ⟨some "list", none⟩).modules = some [] ∧
      (run emptyFS ⟨some "list", none⟩).message =
        "Found 0 modules (0 complete, 0 incomplete)" :=
  run_list_missing_root emptyFS ⟨some "list", none⟩ rfl rfl

/-- The loop of `list_all_modules`, folded over any listing with any
accumulator, keeps the accumulator and appends exactly the checks of the
entries passing the predicate, in order. -/
theorem foldl_append_eq_filter_map {α β : Type} (p : α → Bool) (f : α → β)
    (l : List α) (acc : List β) :
    l.foldl (fun ms item => if p item then ms ++ [f item] else ms) acc
      = acc ++ (l.filter p).map f := by
  induction l generalizing acc with
  | nil => simp
  | cons x xs ih =>
    simp only [List.foldl_cons, List.filter_cons]
    cases h : p x
    · simp [h, ih]
    · simp [h, ih]

/-- C4: `list_all_modules` returns exactly the check results of the
immediate entries of `modules/` that are directories and are not hidden
(name starting with "."), each reported via `check_module_structure` on its
name; hidden entries and non-directories are excluded regardless of their
internal structure. -/
theorem list_all_modules_filters_hidden_and_nondirs (fs : FS) :
    list_all_modules fs =
      if fs.pathExists "modules" then
        ((fs.listdir "modules").filter
            (fun item => fs.isDir (joinPath "modules" item) && !startsWithChar item '.')).map
          (fun item => check_module_structure fs item)
      else [] := by
  by_cases hroot : fs.pathExists "modules"
  · simp only [list_all_modules, hroot, Bool.not_true, if_pos]
    simpa using foldl_append_eq_filter_map
      (fun item => fs.isDir (joinPath "modules" item) && !startsWithChar item '.')
      (fun item => check_module_structure fs item) (fs.listdir "modules") []
  · simp [list_all_modules, hroot]

/-- C5: `has_legacy_module` is in general exactly the existence of
`modules/<m lowercased>.py`, independently of the directory check; and when
the module directory does not exist but the legacy file does, the result
has `has_legacy_module = true`, `exists = false` and `is_complete = false`. -/
theorem has_legacy_module_independent (fs : FS) (m : String)
    (hdir : fs.pathExists (joinPath "modules" m) = false)
    (hleg : fs.pathExists ("modules/" ++ lower m ++ ".py") = true) :
    (∀ fs' m', (check_module_structure fs' m').has_legacy_module
        = fs'.pathExists ("modules/" ++ lower m' ++ ".py")) ∧
      (check_module_structure fs m).has_legacy_module = true ∧
      (check_module_structure fs m).exists_ = false ∧
      (check_module_structure fs m).is_complete = false := by
  refine ⟨fun fs' m' => by simp [check_module_structure], ?_, ?_, ?_⟩ <;>
    simp [check_module_structure, hdir, hleg]

/-- C5 witness: `checkModule("baz")` on the legacy-file-only filesystem. -/
theorem has_legacy_module_independent_witness :
    (∀ fs' m', (check_module_structure fs' m').has_legacy_module
        = fs'.pathExists ("modules/" ++ lower m' ++ ".py")) ∧
      (check_module_structure legacyFS "baz").has_legacy_module = true ∧
      (check_module_structure legacyFS "baz").exists_ = false ∧
      (check_module_structure legacyFS "baz").is_complete = false :=
  has_legacy_module_independent legacyFS "baz" (by rfl) (by rfl)

/-- C6: `run` with operation `"check"` and `module_name` absent returns the
MissingParameter structured error response instead of raising. -/
theorem run_check_missing_module_name (fs : FS) (params : Params)
    (hop : params.operation = some "check") (hmn : params.module_name = none) :
    (run fs params).status = "error" ∧
      (run fs params).message = "Missing module_name parameter for check operation" ∧
      (run fs params).module = "TestOrganizer" := by
  obtain ⟨o, mn⟩ := params
  cases hop
  cases hmn
  refine ⟨rfl, rfl, rfl⟩

/-- C6 witness: `run({operation:"check"})` with no module name errors. -/
theorem run_check_missing_module_name_witness :
    (run emptyFS ⟨some "check", none⟩).status = "error" ∧
      (run emptyFS ⟨some "check", none⟩).message =
        "Missing module_name parameter for check operation" ∧
      (run emptyFS ⟨some "check", none⟩).module = "TestOrganizer" :=
  run_check_missing_module_name emptyFS ⟨some "check", none⟩ rfl rfl

/-- C7: on a successful check, the response status is `"complete"` exactly
when the check result has `is_complete = true` and `"incomplete"` otherwise,
the message names the checked module, and the full result is embedded in
the response. -/
theorem run_check_status_mirrors_is_complete (fs : FS) (params : Params) (m : String)
    (hop : params.operation = some "check") (hmn : params.module_name = some m)
    (hne : m ≠ "") :
    (run fs params).status =
        (if (check_module_structure fs m).is_complete then "complete" else "incomplete") ∧
      ((run fs params).status = "complete" ↔
        (check_module_structure fs m).is_complete = true) ∧
      (run fs params).message = "Module structure check completed for " ++ m ∧
      (run fs params).result = some (check_module_structure fs m) := by
  obtain ⟨o, mn⟩ := params
  cases hop
  cases hmn
  have hrun : run fs ⟨some "check", some m⟩ =
      ⟨if (check_module_structure fs m).is_complete then "complete" else "incomplete",
        "Module structure check completed for " ++ m, "TestOrganizer",
        some (check_module_structure fs m), none⟩ := by
    simp only [run, Option.getD_some, reduceIte, if_neg hne]
  rw [hrun]
  refine ⟨rfl, ?_, rfl, rfl⟩
  cases hb : (check_module_structure fs m).is_complete <;> simp [hb]

/-- C7 witness: `modules/bar/` contains only `tool.py`, so the check of
"bar" reports incomplete with `has_tool_yaml = false`. -/
theorem run_check_status_mirrors_is_complete_witness :
    ((run barFS ⟨some "check", some "bar"⟩).status =
        (if (check_module_structure barFS "bar").is_complete then "complete"
          else "incomplete") ∧
      ((run barFS ⟨some "check", some "bar"⟩).status = "complete" ↔
        (check_module_structure barFS "bar").is_complete = true) ∧
      (run barFS ⟨some "check", some "bar"⟩).message =
        "Module structure check completed for " ++ "bar" ∧
      (run barFS ⟨some "check", some "bar"⟩).result =
        some (check_module_structure barFS "bar")) ∧
      (check_module_structure barFS "bar").has_tool_yaml = false :=
  ⟨run_check_status_mirrors_is_complete barFS ⟨some "check", some "bar"⟩ "bar"
      rfl rfl (by decide),
    by decide⟩

/-- C8: every response produced by `run`, success or error, on every params
mapping and filesystem state, carries the constant identity tag
`module = "TestOrganizer"`. -/
theorem run_module_tag (fs : FS) (params : Params) :
    (run fs params).module = "TestOrganizer" := by
  obtain ⟨o, mn⟩ := params
  simp only [run]
  split
  · split <;> rfl
  · split <;> rfl

/-- C9: when the operation is `"list"`, the `module_name` parameter is
ignored — two params mappings with operation `"list"` that differ only in
`module_name` produce identical responses on the same filesystem state. -/
theorem run_list_ignores_module_name (fs : FS) (p q : Params)
    (hp : p.operation = some "list") (hq : q.operation = some "list") :
    run fs p = run fs q := by
  obtain ⟨po, pm⟩ := p
  obtain ⟨qo, qm⟩ := q
  cases hp
  cases hq
  rfl

/-- C9 witness: absent versus present `module_name` under operation "list". -/
theorem run_list_ignores_module_name_witness :
    run emptyFS ⟨some "list", none⟩ = run emptyFS ⟨some "list", some "anything"⟩ :=
  run_list_ignores_module_name emptyFS ⟨some "list", none⟩
    ⟨some "list", some "anything"⟩ rfl rfl

/-- C10: `run` with operation `"check"` and `module_name` present but equal
to the empty string returns the MissingParameter error response, identical
to the response when `module_name` is absent, because the code tests the
parameter for falsiness rather than presence. -/
theorem run_check_empty_module_name (fs : FS) :
    (run fs ⟨some "check", some ""⟩).status = "error" ∧
      (run fs ⟨some "check", some ""⟩).message =
        "Missing module_name parameter for check operation" ∧
      run fs ⟨some "check", some ""⟩ = run fs ⟨some "check", none⟩ :=
  ⟨rfl, rfl, rfl⟩
